import Mathlib

/-!
Verification development for the Belgrad.su storefront repository.

The definitions below are a shallow embedding of the JavaScript source:

* `Store`  models the product-data module (`products` array, `filterCache`
  map, and the query functions `filterProductsByCategory`, `getProductById`,
  `searchProducts`, `getProductsByPriceRange`, `clearCaches`).
* `Loader` models the product loading code (`loadProducts` in the data
  module, and `loadAllProducts` / `loadProductsFromFile` in
  `js/load-all-products.js`), with the interleavings of two concurrent
  calls made explicit.
* `Rotation` models the modal image-rotation controller
  (`startModalImageRotationWithIndex`, the hover pause/resume handlers,
  `switchMainImage`, `closeProductModal`, `restartImageRotation`, ...)
  as a timer world advanced in 50 ms ticks.

JavaScript strings are modelled as Lean `String`s; `toLowerCase` is
modelled on the ASCII range, `trim` strips whitespace characters, and
numeric prices are parsed into rationals in place of IEEE floats (the
properties proved here do not depend on float rounding).
-/

namespace Store

/-- A product object, as found in the per-country JSON files:
`id, name, description, price, country, category, images, tags`. -/
structure Product where
  id : Int
  name : String
  description : String
  price : String
  country : String
  category : String
  images : List String
  tags : List String
deriving DecidableEq, Repr

/-- A value stored in the shared `filterCache` map.  The JavaScript map is
heterogeneous: the category / search / price queries store arrays of
products, while `getProductById` stores a product object or `null`. -/
inductive CVal where
  | list (ps : List Product)
  | pOpt (p : Option Product)
deriving DecidableEq, Repr

/-- The mutable module state of the product-data module: the `products`
array and the shared `filterCache` map (modelled as an association list in
insertion order; `Map.set` replaces an existing binding in place). -/
structure State where
  products : List Product
  cache : List (String × CVal)
deriving DecidableEq, Repr

/-- `Map.get` / `Map.has` of the JavaScript cache: first binding wins. -/
def cacheFind (c : List (String × CVal)) (k : String) : Option CVal :=
  match c with
  | [] => none
  | (k', v) :: rest => if k' = k then some v else cacheFind rest k

/-- `Map.set`: overwrite the existing binding, else append. -/
def cacheSet (c : List (String × CVal)) (k : String) (v : CVal) :
    List (String × CVal) :=
  match c with
  | [] => [(k, v)]
  | (k', v') :: rest =>
    if k' = k then (k', v) :: rest else (k', v') :: cacheSet rest k v

/-- `clearCaches()`: `filterCache.clear()`. -/
def clearCaches (s : State) : State :=
  { s with cache := [] }

/-- JavaScript `String.prototype.toLowerCase`, modelled on ASCII. -/
def jsToLower (s : String) : String :=
  String.mk (s.data.map Char.toLower)

/-- Drops leading whitespace from a character list. -/
def dropWhitespace (cs : List Char) : List Char :=
  cs.dropWhile Char.isWhitespace

/-- JavaScript `String.prototype.trim`. -/
def jsTrim (s : String) : String :=
  String.mk ((dropWhitespace ((dropWhitespace s.data.reverse).reverse)))

/-- Does `hay` start with `needle`? -/
def leadsWith : List Char → List Char → Bool
  | _, [] => true
  | [], _ :: _ => false
  | h :: hs, n :: ns => h = n && leadsWith hs ns

/-- JavaScript `String.prototype.includes`: substring containment. -/
def jsIncludes (hay needle : String) : Bool :=
  go hay.data needle.data
where
  go : List Char → List Char → Bool
    | _, [] => true
    | [], _ :: _ => false
    | h :: hs, n :: ns => leadsWith (h :: hs) (n :: ns) || go hs (n :: ns)

/-- JavaScript `Array.prototype.includes` on string arrays
(`product.tags.includes(category)`). -/
def jsArrayIncludes (xs : List String) (x : String) : Bool :=
  xs.contains x

/-- `parseFloat(product.price.replace(/[^\d.]/g, ''))`, modelled over the
rationals: strip every character that is not a digit or a dot, then read
the leading `digits[.digits]` prefix; `none` stands for `NaN` (as for an
empty string), in which case both range comparisons are false. -/
def parsePrice (price : String) : Option ℚ :=
  let stripped := price.data.filter (fun c => c.isDigit || c = '.')
  let intPart := stripped.takeWhile Char.isDigit
  let rest := stripped.drop intPart.length
  let fracPart :=
    match rest with
    | '.' :: r => r.takeWhile Char.isDigit
    | _ => []
  if intPart = [] && fracPart = [] then none
  else
    let iv : ℚ := (digitsToNat intPart : ℚ)
    some (iv + (digitsToNat fracPart : ℚ) / ((10 : ℚ) ^ fracPart.length))
where
  digitsToNat (cs : List Char) : Nat :=
    cs.foldl (fun acc c => acc * 10 + (c.toNat - '0'.toNat)) 0

/-- `filterProductsByCategory(category)` (data module, lines 102–122):
consult the shared cache under the raw category string; `'all'` returns
the whole `products` array, otherwise keep products whose `tags` include
the category; cache the result under `category`. -/
def filterProductsByCategory (category : String) (s : State) :
    CVal × State :=
  match cacheFind s.cache category with
  | some v => (v, s)
  | none =>
    let filteredProducts :=
      if category = "all" then s.products
      else s.products.filter (fun p => jsArrayIncludes p.tags category)
    (CVal.list filteredProducts,
      { s with cache := cacheSet s.cache category (CVal.list filteredProducts) })

/-- `getProductById(id)` (data module, lines 129–142): cache key
`product_${id}`; `products.find(p => p.id === id) || null`. -/
def getProductById (id : Int) (s : State) : CVal × State :=
  let cacheKey := "product_" ++ toString id
  match cacheFind s.cache cacheKey with
  | some v => (v, s)
  | none =>
    let product := s.products.find? (fun p => p.id = id)
    (CVal.pOpt product,
      { s with cache := cacheSet s.cache cacheKey (CVal.pOpt product) })

/-- `searchProducts(query)` (data module, lines 208–231): a blank query
returns the whole list without touching the cache; otherwise the query is
lower-cased and trimmed, the cache key is `search_${normalizedQuery}`, and
a miss filters on case-insensitive substring containment in name,
description, country or category. -/
def searchProducts (query : String) (s : State) : CVal × State :=
  if jsTrim query = "" then (CVal.list s.products, s)
  else
    let normalizedQuery := jsTrim (jsToLower query)
    let cacheKey := "search_" ++ normalizedQuery
    match cacheFind s.cache cacheKey with
    | some v => (v, s)
    | none =>
      let searchResults := s.products.filter (fun p =>
        jsIncludes (jsToLower p.name) normalizedQuery ||
        jsIncludes (jsToLower p.description) normalizedQuery ||
        jsIncludes (jsToLower p.country) normalizedQuery ||
        jsIncludes (jsToLower p.category) normalizedQuery)
      (CVal.list searchResults,
        { s with cache := cacheSet s.cache cacheKey (CVal.list searchResults) })

/-- `getProductsByPriceRange(minPrice, maxPrice)` (data module, lines
239–256): cache key `price_${minPrice}_${maxPrice}`; keep products whose
parsed price lies in `[minPrice, maxPrice]` (comparisons with `NaN` are
false). -/
def getProductsByPriceRange (minPrice maxPrice : Int) (s : State) :
    CVal × State :=
  let cacheKey := "price_" ++ toString minPrice ++ "_" ++ toString maxPrice
  match cacheFind s.cache cacheKey with
  | some v => (v, s)
  | none =>
    let filteredProducts := s.products.filter (fun p =>
      match parsePrice p.price with
      | some price => decide ((minPrice : ℚ) ≤ price ∧ price ≤ (maxPrice : ℚ))
      | none => false)
    (CVal.list filteredProducts,
      { s with cache := cacheSet s.cache cacheKey (CVal.list filteredProducts) })

/-- The product `{id:1, tags:['serbia']}` of the spec's example. -/
def pSerbia : Product :=
  { id := 1, name := "Ajvar", description := "Serbian pepper relish"
    price := "500 RSD", country := "Serbia", category := "food"
    images := ["a1.jpg", "a2.jpg"], tags := ["serbia"] }

/-- The product `{id:2, tags:['china']}` of the spec's example. -/
def pChina : Product :=
  { id := 2, name := "Tea", description := "Green tea"
    price := "300 RSD", country := "China", category := "drink"
    images := ["t1.jpg"], tags := ["china"] }

/-- One cached query operation of the data module. -/
inductive QOp where
  | fcat (c : String)
  | byId (i : Int)
  | search (q : String)
  | priceRange (lo hi : Int)
deriving DecidableEq, Repr

/-- The cache-key string an operation derives from its argument (`none`
for a blank search, which bypasses the cache entirely). -/
def keyOf : QOp → Option String
  | .fcat c => some c
  | .byId i => some ("product_" ++ toString i)
  | .search q =>
    if jsTrim q = "" then none else some ("search_" ++ jsTrim (jsToLower q))
  | .priceRange lo hi =>
    some ("price_" ++ toString lo ++ "_" ++ toString hi)

/-- The result of recomputing an operation directly from the product
list, with no cache involved (the claim's reference semantics). -/
def directCVal (o : QOp) (ps : List Product) : CVal :=
  match o with
  | .fcat c =>
    CVal.list (if c = "all" then ps
      else ps.filter (fun p => jsArrayIncludes p.tags c))
  | .byId i => CVal.pOpt (ps.find? (fun p => p.id = i))
  | .search q =>
    if jsTrim q = "" then CVal.list ps
    else
      let normalizedQuery := jsTrim (jsToLower q)
      CVal.list (ps.filter (fun p =>
        jsIncludes (jsToLower p.name) normalizedQuery ||
        jsIncludes (jsToLower p.description) normalizedQuery ||
        jsIncludes (jsToLower p.country) normalizedQuery ||
        jsIncludes (jsToLower p.category) normalizedQuery))
  | .priceRange lo hi =>
    CVal.list (ps.filter (fun p =>
      match parsePrice p.price with
      | some price => decide ((lo : ℚ) ≤ price ∧ price ≤ (hi : ℚ))
      | none => false))

/-- Dispatch an operation to the source function that implements it. -/
def runOp (s : State) (o : QOp) : CVal × State :=
  match o with
  | .fcat c => filterProductsByCategory c s
  | .byId i => getProductById i s
  | .search q => searchProducts q s
  | .priceRange lo hi => getProductsByPriceRange lo hi s

/-- Run a sequence of query operations for their cache effects. -/
def runOps (s : State) (ops : List QOp) : State :=
  ops.foldl (fun s o => (runOp s o).2) s

/-- A cache is faithful to a history of operations when every binding was
written by one of them: the key is that operation's derived key and the
value its direct result over the (epoch-constant) product list. -/
def Faithful (ops : List QOp) (ps : List Product)
    (cache : List (String × CVal)) : Prop :=
  ∀ k v, cacheFind cache k = some v →
    ∃ o ∈ ops, keyOf o = some k ∧ v = directCVal o ps

end Store

namespace Loader

/-- A parsed JSON document, as far as the loaders inspect it. -/
inductive Doc where
  | arr (ps : List Store.Product)
  | objWithProducts (ps : List Store.Product)
  | other
deriving DecidableEq, Repr

/-- What a `fetch(...)` / `response.json()` pair produced. -/
inductive FetchOutcome where
  | networkError
  | httpError (status : Nat)
  | parseError
  | parsed (doc : Doc)
deriving DecidableEq, Repr

/-- A transport-level failure: the fetch rejected, the response was not
OK, or the body was not valid JSON. -/
def isFetchFailure : FetchOutcome → Bool
  | .networkError => true
  | .httpError _ => true
  | .parseError => true
  | .parsed _ => false

/-- JavaScript `data.products`: `undefined` (here `none`) unless the
document is an object carrying a `products` field. -/
def docProducts : Doc → Option (List Store.Product)
  | .objWithProducts ps => some ps
  | _ => none

/-- `loadProductsFromFile(filePath)` (`js/load-all-products.js`, lines
108–137), for a file not in `productsCache`: any fetch failure, JSON parse
failure or non-array document is caught and turned into `[]`; an array
document is returned (and cached, not modelled further here).  The
function never rejects. -/
def loadProductsFromFile (cached : Option (List Store.Product))
    (outcome : FetchOutcome) : List Store.Product :=
  match cached with
  | some ps => ps
  | none =>
    match outcome with
    | .networkError => []
    | .httpError _ => []
    | .parseError => []
    | .parsed (.arr ps) => ps
    | .parsed (.objWithProducts _) => []
    | .parsed .other => []

/-- The merge step of `loadAllProducts` (lines 62–90): one
`loadProductsFromFile` per country file (none of which can reject, so
every `Promise.allSettled` slot is fulfilled), concatenated in order. -/
def loadAllProductsMerge (outcomes : List FetchOutcome) :
    List Store.Product :=
  (outcomes.map (loadProductsFromFile none)).flatten

/-- Module state of the product-data module, as `loadProducts` sees it:
the `products` variable (`none` models `undefined`), the `dataIsLoading`
flag, and the shared filter cache. -/
structure PDState where
  products : Option (List Store.Product)
  dataIsLoading : Bool
  cache : List (String × Store.CVal)
deriving DecidableEq, Repr

/-- What `loadProducts` did before its first suspension point
(data module, lines 44–56). -/
inductive Phase1Result where
  | earlyReturn (ps : Option (List Store.Product))
  | threw
  | proceed
deriving DecidableEq, Repr

/-- The synchronous prefix of `loadProducts`: a call during an in-flight
load returns the current `products` value at once (line 46); a call after
a completed load returns the loaded list (line 52, which reads
`products.length` and therefore throws a `TypeError` if `products` is
`undefined`); otherwise the call sets `dataIsLoading` and goes on to
fetch. -/
def loadProductsPhase1 (s : PDState) : Phase1Result × PDState :=
  if s.dataIsLoading then (.earlyReturn s.products, s)
  else
    match s.products with
    | none => (.threw, s)
    | some ps =>
      if 0 < ps.length then (.earlyReturn (some ps), s)
      else (.proceed, { s with dataIsLoading := true })

/-- What the awaited load inside the try block produced: either the
`ProductLoader.loadAllProducts` result (always an array), or the fallback
`fetch('product/product.json')` path. -/
inductive AwaitResult where
  | loader (ps : List Store.Product)
  | fallback (outcome : FetchOutcome)
deriving DecidableEq, Repr

/-- How one `loadProducts` call ends: resolving with an array, resolving
with `undefined`, or rejecting (an uncaught `TypeError`). -/
inductive CallResult where
  | ok (ps : List Store.Product)
  | okUndef
  | threw
deriving DecidableEq, Repr

/-- The rest of `loadProducts` after the await (lines 62–86): the loader
result is stored and the caches cleared; on the fallback path a transport
failure is caught and the call resolves with `[]` leaving `products`
untouched, while a parsed document without a `products` array first
assigns `undefined` to `products` (line 71) and only then throws — inside
the try — when the success log reads `products.length` (line 74), so the
call still resolves with `[]` but leaves `products` undefined and the
caches uncleared.  `finally` always clears `dataIsLoading`. -/
def loadProductsPhase2 (s : PDState) (r : AwaitResult) :
    CallResult × PDState :=
  match r with
  | .loader ps =>
    (.ok ps, { products := some ps, dataIsLoading := false, cache := [] })
  | .fallback outcome =>
    match outcome with
    | .networkError => (.ok [], { s with dataIsLoading := false })
    | .httpError _ => (.ok [], { s with dataIsLoading := false })
    | .parseError => (.ok [], { s with dataIsLoading := false })
    | .parsed doc =>
      match docProducts doc with
      | some ps =>
        (.ok ps, { products := some ps, dataIsLoading := false, cache := [] })
      | none =>
        (.ok [], { s with products := none, dataIsLoading := false })

/-- One complete `loadProducts` call with no interleaved activity. -/
def loadProducts (s : PDState) (r : AwaitResult) : CallResult × PDState :=
  match loadProductsPhase1 s with
  | (.earlyReturn (some ps), s') => (.ok ps, s')
  | (.earlyReturn none, s') => (.okUndef, s')
  | (.threw, s') => (.threw, s')
  | (.proceed, s') => loadProductsPhase2 s' r

/-- Two concurrent `loadProducts` calls: call A runs to its await and
suspends, call B then runs to completion, and finally A's awaited load
resolves with `r` and A finishes.  Returns (A's result, B's result, final
state). -/
def concurrentLoad (s0 : PDState) (r : AwaitResult) :
    CallResult × CallResult × PDState :=
  match loadProductsPhase1 s0 with
  | (.proceed, s1) =>
    let b := loadProducts s1 r
    let a := loadProductsPhase2 b.2 r
    (a.1, b.1, a.2)
  | (.earlyReturn (some ps), s1) => (.ok ps, (loadProducts s1 r).1, s1)
  | (.earlyReturn none, s1) => (.okUndef, (loadProducts s1 r).1, s1)
  | (.threw, s1) => (.threw, (loadProducts s1 r).1, s1)

/-- Two sequential `loadProducts` calls (the second starts after the
first has fully settled). -/
def sequentialLoads (s0 : PDState) (r1 r2 : AwaitResult) :
    CallResult × CallResult × PDState :=
  let a := loadProducts s0 r1
  let b := loadProducts a.2 r2
  (a.1, b.1, b.2)

/-- The interleaving of two concurrent `loadAllProducts` calls
(`js/load-all-products.js`, lines 39–101): the first call finds the cache
empty and the flag clear, sets `loaderIsLoading`, suspends at
`Promise.allSettled`, resumes, stores the merged list under
`all_products` (line 88) and only then — in `finally` — clears the flag;
the second call, arriving mid-flight, observes `loaderIsLoading`,
busy-waits until the flag clears, and then returns
`productsCache.get('all_products') || []`.  Returns (first result,
second result). -/
def lalConcurrent (outcomes : List FetchOutcome) :
    List Store.Product × List Store.Product :=
  let merged := loadAllProductsMerge outcomes
  let cacheAfterFirst : Option (List Store.Product) := some merged
  (merged, cacheAfterFirst.getD [])

end Loader

namespace Rotation

/-- The rational `n` built with `mkRat` (kept kernel-computable; the
progress percentages of the source are IEEE floats, modelled exactly). -/
def qn (n : Nat) : ℚ :=
  mkRat n 1

/-- Rational addition, computed through `mkRat`. -/
def qAdd (a b : ℚ) : ℚ :=
  mkRat (a.num * b.den + b.num * a.den) (a.den * b.den)

/-- Rational division, computed through `mkRat` (division by zero gives
zero, as for `ℚ`). -/
def qDiv (a b : ℚ) : ℚ :=
  if 0 ≤ b.num then mkRat (a.num * b.den) (a.den * b.num.toNat)
  else mkRat (-(a.num * b.den)) (a.den * (-b.num).toNat)

/-- `IMAGE_ROTATION_CONFIG` (UI module, lines 29–33). -/
structure Config where
  enabled : Bool
  interval : Nat
  onlyInModal : Bool
deriving DecidableEq, Repr

/-- A pending one-shot `setTimeout` callback of the rotation code: the
150 ms delayed restart armed by a thumbnail click (`switchMainImage`,
line 607), or the 100 ms stabilization start armed by `openProductModal`
(line 326). -/
inductive TCb where
  | restartAt (images : List String) (startIndex : Int)
  | stabilizedStart (images : List String)
deriving DecidableEq, Repr

/-- One armed rotation session: the two interval handles created by a
`startModalImageRotationWithIndex` call, the time they were armed, the
advance period captured at creation, the image list, and the closure
variables `currentImageIndex` and `progress` shared by the two
callbacks. -/
structure Session where
  advId : Nat
  progId : Nat
  created : Nat
  advPeriod : Nat
  images : List String
  idx : Int
  progress : ℚ
deriving DecidableEq, Repr

/-- The timer world of the UI module: wall-clock time (advanced in 50 ms
ticks), the rotation config, the modal's visibility and gallery DOM state
(`#modalMainImage.src`, the active thumbnail index, thumbnail sources,
`#progressBar` width), the `currentRotationIntervals` stored handles, the
sessions ever armed, the set of still-live interval ids, the pending
one-shot timeouts in scheduling order, and a fresh-id counter (ids start
at 1, as JavaScript timer handles are nonzero/truthy). -/
structure World where
  now : Nat
  cfg : Config
  modalOpen : Bool
  mainSrc : Option String
  activeThumb : Int
  thumbs : List String
  progressWidth : ℚ
  lastZeroWriteAt : Option Nat
  storedModal : Option Nat
  storedProgress : Option Nat
  sessions : List Session
  alive : List Nat
  timeouts : List (Nat × TCb)
  nextId : Nat
deriving DecidableEq, Repr

/-- JavaScript `Array.prototype.indexOf` / `findIndex` on strings. -/
def jsIndexOf (xs : List String) (x : String) : Int :=
  match xs.findIdx? (fun y => y = x) with
  | some i => (i : Int)
  | none => -1

/-- JavaScript `images[i]` with an `Int` index: `undefined` (`none`)
outside the array bounds. -/
def jsGet (xs : List String) (i : Int) : Option String :=
  if 0 ≤ i then xs[i.toNat]? else none

/-- `clearInterval` guarded by a truthiness check on an optional stored
handle (`if (currentRotationIntervals.modal) clearInterval(...)`). -/
def eraseOptional (l : List Nat) : Option Nat → List Nat
  | none => l
  | some i => l.erase i

/-- Lines 436–441 of `startModalImageRotationWithIndex` (and 583–588 of
`switchMainImage`): clear the stored modal interval, then the stored
progress interval, each only when set; the stored fields themselves are
not nulled here. -/
def clearStoredIntervals (w : World) : World :=
  let a := eraseOptional (eraseOptional w.alive w.storedModal) w.storedProgress
  { w with alive := a }

/-- `forceResetProgressBar()` (lines 894–919): the progress bar width is
written to `0%` (the transition juggling is style-only and not
modelled); the model records the time of every zero write. -/
def forceResetProgressBar (w : World) : World :=
  { w with progressWidth := qn 0, lastZeroWriteAt := some w.now }

/-- `startModalImageRotationWithIndex(images, startIndex)` (lines
427–487): clear the previously stored advance/progress handles, reset the
progress bar, arm a fresh advance interval (period = the config interval
at creation) and a fresh 50 ms progress interval sharing one closure
state, store the new pair, and return it. -/
def startModalImageRotationWithIndex (images : List String)
    (startIndex : Int) (w : World) : World × (Nat × Nat) :=
  let w1 := clearStoredIntervals w
  let w2 := forceResetProgressBar w1
  let advId := w2.nextId
  let progId := w2.nextId + 1
  let sess : Session :=
    { advId := advId, progId := progId, created := w2.now,
      advPeriod := w2.cfg.interval, images := images, idx := startIndex,
      progress := qn 0 }
  let w3 := { w2 with sessions := w2.sessions ++ [sess], alive := w2.alive ++ [advId, progId], storedModal := some advId, storedProgress := some progId, nextId := w2.nextId + 2 }
  (w3, (advId, progId))

/-- `startModalImageRotation(images)` (lines 417–419): start from index 0. -/
def startModalImageRotation (images : List String) (w : World) :
    World × (Nat × Nat) :=
  startModalImageRotationWithIndex images 0 w

/-- The `rotateImages` callback of a session (lines 446–467): advance the
closure index modulo the image count, write the main image source, mark
the active thumbnail, and reset the closure progress and the displayed
progress to 0. -/
def fireAdvance (s : Session) (w : World) : World × Session :=
  let idx' := (s.idx + 1) % (s.images.length : Int)
  let w1 := { w with mainSrc := jsGet s.images idx', activeThumb := idx', progressWidth := qn 0, lastZeroWriteAt := some w.now }
  (w1, { s with idx := idx', progress := qn 0 })

/-- The `updateProgress` callback of a session (lines 469–476): add
`100 / (interval / 50)` percent — reading the *current* config interval —
and write the width only while the accumulated progress is at most 100. -/
def fireProgressTick (s : Session) (w : World) : World × Session :=
  let p' := qAdd s.progress (qDiv (qn 100) (qDiv (qn w.cfg.interval) (qn 50)))
  (if p' ≤ qn 100 then { w with progressWidth := p' } else w,
    { s with progress := p' })

/-- One 50 ms tick of one session: the advance interval fires when live
and due (advance was registered before the progress interval, so at a
shared due instant it runs first), then the progress interval fires when
live and due. -/
def sessionTick (w : World) (s : Session) : World × Session :=
  let r1 :=
    if s.advId ∈ w.alive ∧ s.created < w.now ∧
        (w.now - s.created) % s.advPeriod = 0 then
      fireAdvance s w
    else (w, s)
  if r1.2.progId ∈ r1.1.alive ∧ r1.2.created < r1.1.now ∧
      (r1.1.now - r1.2.created) % 50 = 0 then
    fireProgressTick r1.2 r1.1
  else r1

/-- Run all sessions of a tick in creation (registration) order. -/
def sessionsTickGo : List Session → World → List Session → World
  | [], w, acc => { w with sessions := acc }
  | s :: rest, w, acc =>
    let r := sessionTick w s
    sessionsTickGo rest r.1 (acc ++ [r.2])

def sessionsTick (w : World) : World :=
  sessionsTickGo w.sessions w []

/-- The 150 ms timeout of `switchMainImage` (lines 607–611) restarts the
session *unconditionally*; the 100 ms timeout of `openProductModal`
(lines 326–368) first re-checks that the modal is still displayed (line
328) and otherwise arms nothing. -/
def fireTimeout (cb : TCb) (w : World) : World :=
  match cb with
  | .restartAt images startIndex =>
    (startModalImageRotationWithIndex images startIndex w).1
  | .stabilizedStart images =>
    if w.modalOpen then (startModalImageRotation images w).1 else w

/-- Fire the pending timeouts that are due, in scheduling order; the rest
stay pending. -/
def runTimeoutsList : List (Nat × TCb) → World → World
  | [], w => w
  | (due, cb) :: rest, w =>
    if due ≤ w.now then runTimeoutsList rest (fireTimeout cb w)
    else runTimeoutsList rest { w with timeouts := w.timeouts ++ [(due, cb)] }

def fireDueTimeouts (w : World) : World :=
  runTimeoutsList w.timeouts { w with timeouts := [] }

/-- Advance the world by 50 ms: bump the clock, fire due one-shot
timeouts, then fire due intervals session by session. -/
def tick (w : World) : World :=
  sessionsTick (fireDueTimeouts { w with now := w.now + 50 })

def runTicks : Nat → World → World
  | 0, w => w
  | n + 1, w => runTicks n (tick w)

/-- The module just after load: no modal, no timers, empty gallery. -/
def cleanWorld (cfg : Config) : World :=
  { now := 0, cfg := cfg, modalOpen := false, mainSrc := none,
    activeThumb := -1, thumbs := [], progressWidth := qn 0,
    lastZeroWriteAt := none, storedModal := none, storedProgress := none,
    sessions := [], alive := [], timeouts := [], nextId := 1 }

/-- `stopAllImageRotation()` (lines 714–736): clear both stored interval
handles and null them (card rotations are out of modal scope here). -/
def stopAllImageRotation (w : World) : World :=
  let w1 := clearStoredIntervals w
  { w1 with storedModal := none, storedProgress := none }

/-- `closeProductModal()` (lines 632–652): hide the modal, stop all
rotation, and reset the progress bar display to 0%. -/
def closeProductModal (w : World) : World :=
  let w1 := stopAllImageRotation { w with modalOpen := false }
  { w1 with progressWidth := qn 0, lastZeroWriteAt := some w1.now }

/-- `openProductModal(product)` (lines 285–372), gallery/rotation parts:
set the main image to the first product image, rebuild the thumbnail
strip (kept as-is when the product has no images — `createImageGallery`
returns before clearing it, line 539), show the modal, and — only when
rotation is enabled and the product has more than one image — reset the
progress display and schedule the 100 ms stabilization start. -/
def openProductModal (images : List String) (w : World) : World :=
  let w1 := { w with mainSrc := jsGet images 0, modalOpen := true }
  let w2 :=
    if images.length = 0 then w1
    else { w1 with thumbs := images, activeThumb := 0 }
  if w2.cfg.enabled && decide (1 < images.length) then
    { w2 with progressWidth := qn 0, lastZeroWriteAt := some w2.now, timeouts := w2.timeouts ++ [(w2.now + 100, TCb.stabilizedStart images)] }
  else w2

/-- `switchMainImage(imageSrc, clickedThumbnail)` (lines 570–614): show
the clicked image, mark its thumbnail active; when rotation is enabled,
clear the stored intervals, reset the progress bar, and — when the
current product was found and has more than one image — schedule the
150 ms delayed restart from the clicked image's index.  `productImages`
is the image list of the product found by name in `App.products`
(`none` when the lookup fails). -/
def switchMainImage (imageSrc : String) (clickedIdx : Int)
    (productImages : Option (List String)) (w : World) : World :=
  let w1 := { w with mainSrc := some imageSrc, activeThumb := clickedIdx }
  if w1.cfg.enabled then
    let w2 := forceResetProgressBar (clearStoredIntervals w1)
    match productImages with
    | some imgs =>
      if 1 < imgs.length then
        { w2 with timeouts := w2.timeouts ++ [(w2.now + 150, TCb.restartAt imgs (jsIndexOf imgs imageSrc))] }
      else w2
    | none => w2
  else w1

/-- `restartImageRotation()` (lines 741–759): nothing unless rotation is
enabled and the modal is displayed; find the main image among the
thumbnails and, when found, start rotation over the thumbnail sources —
with *no* check of how many there are. -/
def restartImageRotation (w : World) : World :=
  if w.cfg.enabled then
    if w.modalOpen then
      match w.mainSrc with
      | some src =>
        if jsIndexOf w.thumbs src ≠ -1 then
          (startModalImageRotation w.thumbs w).1
        else w
      | none => w
    else w
  else w

/-- `setImageRotationInterval(interval)` (lines 765–773). -/
def setImageRotationInterval (interval : Nat) (w : World) : World :=
  let w1 := { w with cfg := { w.cfg with interval := interval } }
  if w1.cfg.enabled then restartImageRotation w1 else w1

/-- `toggleImageRotation(enabled)` (lines 699–709). -/
def toggleImageRotation (b : Bool) (w : World) : World :=
  let w1 := { w with cfg := { w.cfg with enabled := b } }
  if b then restartImageRotation w1 else stopAllImageRotation w1

/-- `forceStartImageRotation()` (lines 824–837). -/
def forceStartImageRotation (w : World) : World :=
  let w1 :=
    if w.cfg.enabled then w
    else { w with cfg := { w.cfg with enabled := true } }
  restartImageRotation w1

/-- The `pauseOnHover` closure of `openProductModal` (lines 337–346): it
captures the interval-handle pair of the session it belongs to and, as
the handles are truthy, clears both (the progress-bar class change is
style-only). -/
def pauseOnHover (ids : Nat × Nat) (w : World) : World :=
  if ids.1 ≠ 0 then
    { w with alive := (w.alive.erase ids.1).erase ids.2 }
  else w

/-- The `resumeOnLeave` closure of `openProductModal` (lines 349–357):
when rotation is enabled, call `startModalImageRotation(product.images)`
— index 0 — and capture the new handle pair; otherwise keep the old
captured pair and do nothing. -/
def resumeOnLeave (ids : Nat × Nat) (images : List String) (w : World) :
    World × (Nat × Nat) :=
  if w.cfg.enabled then startModalImageRotation images w else (w, ids)

/-- Is any modal rotation interval live? -/
def rotationArmed (w : World) : Bool :=
  !w.alive.isEmpty

/-- A world in which the modal shows a one-image product: the gallery has
a single thumbnail and the main image shows it. -/
def oneImageWorld : World :=
  { cleanWorld ⟨true, 3000, true⟩ with modalOpen := true, mainSrc := some "a.jpg", thumbs := ["a.jpg"] }

/-- C1 scenario, step 1: a three-image session starts (interval 100 ms)
with the modal open on the first image; the handle pair is what the hover
closures capture. -/
def c1Start : World × (Nat × Nat) :=
  startModalImageRotation ["a", "b", "c"]
    { cleanWorld ⟨true, 100, true⟩ with modalOpen := true, thumbs := ["a", "b", "c"], mainSrc := some "a", activeThumb := 0 }

/-- C1 scenario, step 2: 200 ms pass (two advances: the modal displays
image index 2, `"c"`), then the pointer enters and `pauseOnHover` runs. -/
def c1Paused : World :=
  pauseOnHover c1Start.2 (runTicks 4 c1Start.1)

/-- C1 scenario, step 3: the pointer leaves and `resumeOnLeave` runs. -/
def c1Resumed : World :=
  (resumeOnLeave c1Start.2 ["a", "b", "c"] c1Paused).1

/-- C8 scenario: open a two-image product (3000 ms interval), let the
stabilization timeout arm the session at t = 100 ms. -/
def c8AfterOpen : World :=
  runTicks 4 (openProductModal ["a", "b"] (cleanWorld ⟨true, 3000, true⟩))

/-- C8 scenario: at t = 200 ms the user clicks the second thumbnail;
`switchMainImage` cancels the session and arms the 150 ms delayed
restart. -/
def c8AfterClick : World :=
  switchMainImage "b" 1 (some ["a", "b"]) c8AfterOpen

/-- C8 scenario: at t = 250 ms — before the 150 ms timeout fires — the
user closes the modal. -/
def c8Closed : World :=
  closeProductModal (runTicks 1 c8AfterClick)

/-- C8 scenario: 3100 ms later (t = 3350 ms) the delayed restart has
fired at t = 350 ms and its advance timer has fired at t = 3350 ms. -/
def c8Final : World :=
  runTicks 62 c8Closed

/-- The C7 session world after `k` ticks (`k < m`): a session armed at
t = 0 from `startIndex = start` over interval `50·m` ms, with `k` progress
increments accumulated and no advance yet. -/
def c7World (images : List String) (start : Int) (m k : Nat) : World :=
  { now := 50 * k, cfg := ⟨true, 50 * m, true⟩, modalOpen := false, mainSrc := none, activeThumb := -1, thumbs := [], progressWidth := (k : ℚ) * (100 / (m : ℚ)), lastZeroWriteAt := some 0, storedModal := some 1, storedProgress := some 2, sessions := [{ advId := 1, progId := 2, created := 0, advPeriod := 50 * m, images := images, idx := start, progress := (k : ℚ) * (100 / (m : ℚ)) }], alive := [1, 2], timeouts := [], nextId := 3 }

end Rotation

set_option maxRecDepth 200000

/-- C3 (counterexample): the claim quantifies over *any* tag `t`, but the
code special-cases `'all'`: on the fresh state holding only the product
`{id:1, tags:['serbia']}`, `filterProductsByCategory('all')` returns that
product even though `'all'` is not in its tag set, so the result is not
the sublist of products whose tag set contains the tag. -/
theorem c3_all_category_cex :
    (Store.filterProductsByCategory "all"
        { products := [Store.pSerbia], cache := [] }).1 =
      Store.CVal.list [Store.pSerbia] ∧
    Store.pSerbia.tags.contains "all" = false := by
  constructor
  · rfl
  · rfl

/-- C3 (amended): for any tag `t ≠ 'all'`, and provided the shared cache
holds no entry under the key `t` (as at the start of a cache epoch — a
stale or colliding entry would be returned verbatim, cf. C4), the result
of `filterProductsByCategory(t)` is exactly the sublist of the current
products whose tag set contains `t`: it is `products.filter(tags ∋ t)`,
and membership in it is equivalent to being a product of the list whose
tags include `t`. -/
theorem c3_filter_by_tag_exact (t : String) (ps : List Store.Product)
    (cache : List (String × Store.CVal))
    (hall : t ≠ "all") (hfresh : Store.cacheFind cache t = none) :
    (Store.filterProductsByCategory t { products := ps, cache := cache }).1 =
      Store.CVal.list (ps.filter (fun p => Store.jsArrayIncludes p.tags t)) ∧
    ∀ p : Store.Product,
      p ∈ ps.filter (fun p => Store.jsArrayIncludes p.tags t) ↔
        p ∈ ps ∧ Store.jsArrayIncludes p.tags t = true := by
  constructor
  · simp only [Store.filterProductsByCategory, hfresh, if_neg hall]
  · intro p
    simp [List.mem_filter]

/-- C3 (witness): the amended theorem applied to the spec's own example —
`filterProductsByCategory('serbia')` on
`[{id:1,tags:['serbia']},{id:2,tags:['china']}]` returns `[{id:1,...}]`. -/
theorem c3_filter_by_tag_exact_witness :
    ("serbia" : String) ≠ "all" ∧
    (Store.filterProductsByCategory "serbia"
        { products := [Store.pSerbia, Store.pChina], cache := [] }).1 =
      Store.CVal.list [Store.pSerbia] := by
  refine ⟨by decide, ?_⟩
  have h := c3_filter_by_tag_exact "serbia" [Store.pSerbia, Store.pChina] []
    (by decide) (by rfl)
  rw [h.1]
  rfl

namespace Store

theorem cacheFind_cacheSet_self (c : List (String × CVal)) (k : String)
    (v : CVal) : cacheFind (cacheSet c k v) k = some v := by
  induction c with
  | nil => simp [cacheSet, cacheFind]
  | cons hd tl ih =>
    obtain ⟨k', v'⟩ := hd
    by_cases h : k' = k
    · simp [cacheSet, cacheFind, h]
    · simp [cacheSet, cacheFind, h, ih]

theorem cacheFind_cacheSet_ne (c : List (String × CVal)) (k k' : String)
    (v : CVal) (h : k ≠ k') : cacheFind (cacheSet c k v) k' = cacheFind c k' := by
  induction c with
  | nil => simp [cacheSet, cacheFind, h]
  | cons hd tl ih =>
    obtain ⟨k'', v''⟩ := hd
    by_cases h2 : k'' = k
    · subst h2
      simp [cacheSet, cacheFind, h]
    · simp [cacheSet, cacheFind, h2, ih]

/-- Cache hit: when an operation's derived key is bound in the cache, the
source query returns the cached value and leaves the state unchanged. -/
theorem runOp_hit (s : State) (o : QOp) (k : String) (v : CVal)
    (hko : keyOf o = some k) (hc : cacheFind s.cache k = some v) :
    runOp s o = (v, s) := by
  cases o with
  | fcat c =>
    obtain rfl : c = k := by simpa [keyOf] using hko
    simp [runOp, filterProductsByCategory, hc]
  | byId i =>
    obtain rfl : "product_" ++ toString i = k := by simpa [keyOf] using hko
    simp [runOp, getProductById, hc]
  | search q =>
    by_cases hq : jsTrim q = ""
    · simp [keyOf, hq] at hko
    · obtain rfl : "search_" ++ jsTrim (jsToLower q) = k := by
        simpa [keyOf, hq] using hko
      simp [runOp, searchProducts, hq, hc]
  | priceRange lo hi =>
    obtain rfl : "price_" ++ toString lo ++ "_" ++ toString hi = k := by
      simpa [keyOf] using hko
    simp [runOp, getProductsByPriceRange, hc]

/-- Cache miss: the source query computes the direct result and stores it
in the cache under the derived key. -/
theorem runOp_miss (s : State) (o : QOp) (k : String)
    (hko : keyOf o = some k) (hc : cacheFind s.cache k = none) :
    runOp s o =
      (directCVal o s.products,
        { s with cache := cacheSet s.cache k (directCVal o s.products) }) := by
  cases o with
  | fcat c =>
    obtain rfl : c = k := by simpa [keyOf] using hko
    simp [runOp, filterProductsByCategory, hc, directCVal]
  | byId i =>
    obtain rfl : "product_" ++ toString i = k := by simpa [keyOf] using hko
    simp [runOp, getProductById, hc, directCVal]
  | search q =>
    by_cases hq : jsTrim q = ""
    · simp [keyOf, hq] at hko
    · obtain rfl : "search_" ++ jsTrim (jsToLower q) = k := by
        simpa [keyOf, hq] using hko
      simp [runOp, searchProducts, hq, hc, directCVal]
  | priceRange lo hi =>
    obtain rfl : "price_" ++ toString lo ++ "_" ++ toString hi = k := by
      simpa [keyOf] using hko
    simp [runOp, getProductsByPriceRange, hc, directCVal]

/-- A keyless operation (blank search) returns the direct result and does
not touch the state. -/
theorem runOp_nokey (s : State) (o : QOp) (hko : keyOf o = none) :
    runOp s o = (directCVal o s.products, s) := by
  cases o with
  | fcat c => simp [keyOf] at hko
  | byId i => simp [keyOf] at hko
  | search q =>
    by_cases hq : jsTrim q = ""
    · simp [runOp, searchProducts, hq, directCVal]
    · simp [keyOf, hq] at hko
  | priceRange lo hi => simp [keyOf] at hko

theorem runOp_products (s : State) (o : QOp) :
    (runOp s o).2.products = s.products := by
  cases hko : keyOf o with
  | none => rw [runOp_nokey s o hko]
  | some k =>
    cases hc : cacheFind s.cache k with
    | none => rw [runOp_miss s o k hko hc]
    | some v => rw [runOp_hit s o k v hko hc]

theorem faithful_step (ops : List QOp) (ps : List Product) (s : State)
    (o : QOp) (hp : s.products = ps) (hf : Faithful ops ps s.cache) :
    Faithful (ops ++ [o]) ps (runOp s o).2.cache := by
  have weaken : ∀ k v, cacheFind s.cache k = some v →
      ∃ o' ∈ ops ++ [o], keyOf o' = some k ∧ v = directCVal o' ps := by
    intro k v hk
    obtain ⟨o', ho', hko', hv⟩ := hf k v hk
    exact ⟨o', List.mem_append_left _ ho', hko', hv⟩
  cases hko : keyOf o with
  | none =>
    rw [runOp_nokey s o hko]
    exact weaken
  | some ko =>
    cases hc : cacheFind s.cache ko with
    | some v0 =>
      rw [runOp_hit s o ko v0 hko hc]
      exact weaken
    | none =>
      rw [runOp_miss s o ko hko hc]
      intro k v hk
      by_cases hkk : ko = k
      · subst hkk
        rw [cacheFind_cacheSet_self] at hk
        refine ⟨o, List.mem_append_right _ (List.mem_singleton_self o), hko, ?_⟩
        rw [hp] at hk
        exact (Option.some_injective _ hk).symm
      · rw [cacheFind_cacheSet_ne _ _ _ _ hkk] at hk
        exact weaken k v hk

theorem faithful_runOps (ops : List QOp) (ps : List Product) :
    ∀ (pre : List QOp) (s : State), s.products = ps →
      Faithful pre ps s.cache →
      Faithful (pre ++ ops) ps (runOps s ops).cache ∧
        (runOps s ops).products = ps := by
  induction ops with
  | nil =>
    intro pre s hp hf
    simpa [runOps] using ⟨hf, hp⟩
  | cons o rest ih =>
    intro pre s hp hf
    have hstep := faithful_step pre ps s o hp hf
    have hp' : (runOp s o).2.products = ps := by
      rw [runOp_products, hp]
    have := ih (pre ++ [o]) (runOp s o).2 hp' hstep
    rw [List.append_assoc, List.singleton_append] at this
    simpa [runOps] using this

end Store

/-- C4 (counterexample): the four queries share one `filterCache`, and the
argument-derived keys of different operations can collide.  On the product
list `[{id:1,...}]`, calling `getProductById(1)` caches the product object
under the key `product_1`; a subsequent `filterProductsByCategory('product_1')`
then returns that cached product object, whereas recomputing the category
filter directly from the product list yields the empty array — so the
cached query is not observationally transparent. -/
theorem c4_key_collision_cex :
    (Store.filterProductsByCategory "product_1"
        (Store.getProductById 1
          { products := [Store.pSerbia], cache := [] }).2).1 =
      Store.CVal.pOpt (some Store.pSerbia) ∧
    Store.directCVal (Store.QOp.fcat "product_1") [Store.pSerbia] =
      Store.CVal.list [] := by
  constructor
  · rfl
  · rfl

/-- C4 (amended): within one cache epoch (starting from cleared caches,
with the product list unchanged), each cached query returns exactly the
result of recomputing it directly from the current product list,
*provided* no earlier query of the epoch derived the same cache-key
string with a different direct result — the proviso the shared
`filterCache` forces, since e.g. `getProductById(1)` and
`filterProductsByCategory('product_1')` collide on the key `product_1`. -/
theorem c4_cache_transparent (ps : List Store.Product)
    (ops : List Store.QOp) (o : Store.QOp)
    (hcoll : ∀ o' ∈ ops, Store.keyOf o' = Store.keyOf o →
      Store.directCVal o' ps = Store.directCVal o ps) :
    (Store.runOp (Store.runOps { products := ps, cache := [] } ops) o).1 =
      Store.directCVal o ps := by
  obtain ⟨hf, hp⟩ := Store.faithful_runOps ops ps []
    { products := ps, cache := [] } rfl (by intro k v hk; cases hk)
  rw [List.nil_append] at hf
  cases hko : Store.keyOf o with
  | none =>
    rw [Store.runOp_nokey _ o hko, hp]
  | some k =>
    cases hc : Store.cacheFind (Store.runOps
        { products := ps, cache := [] } ops).cache k with
    | none =>
      rw [Store.runOp_miss _ o k hko hc, hp]
    | some v =>
      rw [Store.runOp_hit _ o k v hko hc]
      obtain ⟨o', ho', hko', hv⟩ := hf k v hc
      rw [hv]
      exact hcoll o' ho' (hko'.trans hko.symm)

/-- C4 (witness): after a `getProductById(1)` call (whose key `product_1`
does not collide with the key `serbia`), `filterProductsByCategory('serbia')`
still returns exactly the direct recomputation, here `[{id:1,...}]`. -/
theorem c4_cache_transparent_witness :
    (Store.runOp
        (Store.runOps { products := [Store.pSerbia, Store.pChina], cache := [] }
          [Store.QOp.byId 1])
        (Store.QOp.fcat "serbia")).1 =
      Store.directCVal (Store.QOp.fcat "serbia")
        [Store.pSerbia, Store.pChina] ∧
    Store.directCVal (Store.QOp.fcat "serbia") [Store.pSerbia, Store.pChina] =
      Store.CVal.list [Store.pSerbia] := by
  constructor
  · refine c4_cache_transparent _ _ _ ?_
    intro o' ho' hk
    simp only [List.mem_singleton] at ho'
    subst ho'
    exact absurd hk (by decide)
  · rfl

/-- C10: for an `id` with no matching product, `getProductById(id)` — on a
state whose shared cache has no binding yet under `product_${id}` — returns
`null` (modelled `CVal.pOpt none`; the source's `find(...) || null` turns
`undefined` into `null`, and nothing can throw), caches that `null` under
the key `product_${id}`, and a repeated lookup on the resulting state hits
the cache (`Map.has` is true for a stored `null`) and returns `null`
again; only `clearCaches()` (run by `load()`/`refresh()`) removes the
binding. -/
theorem c10_missing_id_cached_null (i : Int) (s : Store.State)
    (hfresh : Store.cacheFind s.cache ("product_" ++ toString i) = none)
    (hmiss : s.products.find? (fun p => p.id = i) = none) :
    (Store.getProductById i s).1 = Store.CVal.pOpt none ∧
    Store.cacheFind (Store.getProductById i s).2.cache
        ("product_" ++ toString i) = some (Store.CVal.pOpt none) ∧
    (Store.getProductById i (Store.getProductById i s).2).1 =
      Store.CVal.pOpt none ∧
    Store.cacheFind (Store.clearCaches (Store.getProductById i s).2).cache
        ("product_" ++ toString i) = none := by
  refine ⟨?_, ?_, ?_, ?_⟩ <;>
    simp [Store.getProductById, Store.clearCaches, hfresh, hmiss,
      Store.cacheFind_cacheSet_self, Store.cacheFind]

/-- C10 (witness): looking up the absent id `5` in the two-product list
returns `null`, caches `null` under `product_5`, and returns `null` again
on the repeated lookup. -/
theorem c10_missing_id_cached_null_witness :
    (Store.getProductById 5
        { products := [Store.pSerbia, Store.pChina], cache := [] }).1 =
      Store.CVal.pOpt none ∧
    (Store.getProductById 5
        (Store.getProductById 5
          { products := [Store.pSerbia, Store.pChina], cache := [] }).2).1 =
      Store.CVal.pOpt none := by
  have h := c10_missing_id_cached_null 5
    { products := [Store.pSerbia, Store.pChina], cache := [] }
    (by rfl) (by rfl)
  exact ⟨h.1, h.2.2.1⟩

/-- C2 (counterexample): a `loadProducts()` call made while a load is in
flight does *not* await it.  From the initial state (`products = []`,
not loading), call A proceeds past its checks and suspends at the await;
call B, arriving now, hits the `dataIsLoading` early return (line 46) and
resolves immediately with the still-empty `products` array; A's load then
resolves with one product.  So B returns `[]` while the fully loaded
list is `[{id:1,...}]` — B returned an empty, stale list. -/
theorem c2_inflight_returns_empty_cex :
    Loader.concurrentLoad
        { products := some [], dataIsLoading := false, cache := [] }
        (Loader.AwaitResult.loader [Store.pSerbia]) =
      (Loader.CallResult.ok [Store.pSerbia], Loader.CallResult.ok [],
        { products := some [Store.pSerbia], dataIsLoading := false,
          cache := [] }) := by
  rfl

/-- C2 (amended): a `loadProducts()` call made while a load is already in
flight starts no new fetch — it returns the current (possibly still
empty) `products` array immediately, leaving the state untouched —
whereas a concurrent `ProductLoader.loadAllProducts()` call does await
the in-flight load (busy-waiting on `loaderIsLoading`) and returns
exactly the list the in-flight load produced. -/
theorem c2_inflight_load_behavior :
    (∀ (s : Loader.PDState) (r : Loader.AwaitResult)
        (ps : List Store.Product),
      s.dataIsLoading = true → s.products = some ps →
        Loader.loadProducts s r = (Loader.CallResult.ok ps, s)) ∧
    (∀ outcomes : List Loader.FetchOutcome,
      (Loader.lalConcurrent outcomes).2 = (Loader.lalConcurrent outcomes).1) := by
  constructor
  · intro s r ps hload hps
    simp [Loader.loadProducts, Loader.loadProductsPhase1, hload, hps]
  · intro outcomes
    rfl

/-- C2 (witness): the amended theorem at a concrete in-flight state and a
concrete pair of country files. -/
theorem c2_inflight_load_behavior_witness :
    Loader.loadProducts
        { products := some [], dataIsLoading := true, cache := [] }
        (Loader.AwaitResult.loader [Store.pSerbia]) =
      (Loader.CallResult.ok [],
        { products := some [], dataIsLoading := true, cache := [] }) ∧
    (Loader.lalConcurrent
        [Loader.FetchOutcome.parsed (Loader.Doc.arr [Store.pSerbia]),
         Loader.FetchOutcome.networkError]).2 =
      (Loader.lalConcurrent
        [Loader.FetchOutcome.parsed (Loader.Doc.arr [Store.pSerbia]),
         Loader.FetchOutcome.networkError]).1 := by
  exact ⟨c2_inflight_load_behavior.1 _ (Loader.AwaitResult.loader [Store.pSerbia])
    [] rfl rfl, c2_inflight_load_behavior.2 _⟩

/-- C9 (counterexample): an error can propagate past the loader boundary.
In fallback mode (no `ProductLoader`), load a `product/product.json` whose
parsed document is a top-level array: `products = data.products` assigns
`undefined` (line 71), the success log then throws inside the try reading
`products.length` (line 74), so this first call is caught and resolves
with `[]` — but it leaves the module's `products` variable `undefined`.
The *next* `loadProducts()` call then evaluates `products.length > 0`
(line 50) *outside* any try block and rejects with an uncaught
`TypeError`. -/
theorem c9_second_call_throws_cex :
    Loader.sequentialLoads
        { products := some [], dataIsLoading := false, cache := [] }
        (Loader.AwaitResult.fallback
          (Loader.FetchOutcome.parsed (Loader.Doc.arr [Store.pSerbia])))
        (Loader.AwaitResult.fallback
          (Loader.FetchOutcome.parsed
            (Loader.Doc.objWithProducts [Store.pSerbia]))) =
      (Loader.CallResult.ok [], Loader.CallResult.threw,
        { products := none, dataIsLoading := false, cache := [] }) := by
  rfl

/-- C9 (amended): each single failing call does degrade to an empty
result instead of an exception — `loadProductsFromFile` returns `[]` on a
network error, non-OK status, unparsable JSON or non-array document;
`loadAllProducts` merges per-file results and returns `[]` when every
file fails; and a first `loadProducts()` call in fallback mode returns
`[]` on any transport failure, leaving the state as it was.  However,
after a fallback load of a parsed document that lacks a `products` array,
the module's `products` variable is left `undefined` and the *next*
`loadProducts()` call throws an uncaught `TypeError` (see the
counterexample), so the "never past the loader boundary" part holds only
call-by-call, not across calls. -/
theorem c9_failures_degrade_to_empty :
    (∀ outcome : Loader.FetchOutcome,
      Loader.isFetchFailure outcome = true →
        Loader.loadProductsFromFile none outcome = []) ∧
    (∀ doc : Loader.Doc, (∀ ps, doc ≠ Loader.Doc.arr ps) →
        Loader.loadProductsFromFile none (Loader.FetchOutcome.parsed doc) = []) ∧
    (∀ outcomes : List Loader.FetchOutcome,
      (∀ o ∈ outcomes, Loader.isFetchFailure o = true) →
        Loader.loadAllProductsMerge outcomes = []) ∧
    (∀ outcome : Loader.FetchOutcome,
      Loader.isFetchFailure outcome = true →
        Loader.loadProducts
            { products := some [], dataIsLoading := false, cache := [] }
            (Loader.AwaitResult.fallback outcome) =
          (Loader.CallResult.ok [],
            { products := some [], dataIsLoading := false, cache := [] })) := by
  refine ⟨?_, ?_, ?_, ?_⟩
  · intro outcome h
    cases outcome with
    | networkError => rfl
    | httpError status => rfl
    | parseError => rfl
    | parsed doc => simp [Loader.isFetchFailure] at h
  · intro doc h
    cases doc with
    | arr ps => exact absurd rfl (h ps)
    | objWithProducts ps => rfl
    | other => rfl
  · intro outcomes h
    induction outcomes with
    | nil => rfl
    | cons o rest ih =>
      have ho := h o (List.mem_cons_self o rest)
      have hrest := ih (fun o' ho' => h o' (List.mem_cons_of_mem o ho'))
      have hfile : Loader.loadProductsFromFile none o = [] := by
        cases o with
        | networkError => rfl
        | httpError status => rfl
        | parseError => rfl
        | parsed doc => simp [Loader.isFetchFailure] at ho
      simp [Loader.loadAllProductsMerge, List.map_cons, hfile] at hrest ⊢
      simpa [Loader.loadAllProductsMerge] using hrest
  · intro outcome h
    cases outcome with
    | networkError => rfl
    | httpError status => rfl
    | parseError => rfl
    | parsed doc => simp [Loader.isFetchFailure] at h

/-- C9 (witness): the amended theorem at concrete failing inputs — an
HTTP 404 file load, a non-array document, an all-failing country-file
set, and a fallback `loadProducts` call over an unparsable body. -/
theorem c9_failures_degrade_to_empty_witness :
    Loader.loadProductsFromFile none (Loader.FetchOutcome.httpError 404) = [] ∧
    Loader.loadProductsFromFile none
      (Loader.FetchOutcome.parsed Loader.Doc.other) = [] ∧
    Loader.loadAllProductsMerge
      [Loader.FetchOutcome.networkError, Loader.FetchOutcome.httpError 500] = [] ∧
    Loader.loadProducts
        { products := some [], dataIsLoading := false, cache := [] }
        (Loader.AwaitResult.fallback Loader.FetchOutcome.parseError) =
      (Loader.CallResult.ok [],
        { products := some [], dataIsLoading := false, cache := [] }) := by
  refine ⟨?_, ?_, ?_, ?_⟩
  · exact c9_failures_degrade_to_empty.1 _ rfl
  · exact c9_failures_degrade_to_empty.2.1 Loader.Doc.other
      (fun ps h => by cases h)
  · exact c9_failures_degrade_to_empty.2.2.1 _ (by
      intro o ho
      simp only [List.mem_cons, List.not_mem_nil, or_false] at ho
      rcases ho with rfl | rfl
      · rfl
      · rfl)
  · exact c9_failures_degrade_to_empty.2.2.2 _ rfl

namespace Rotation

theorem qn_eq (n : Nat) : qn n = (n : ℚ) := by
  rw [qn, Rat.mkRat_eq_div]
  simp

theorem qAdd_eq (a b : ℚ) : qAdd a b = a + b := by
  have ha : ((a.den : ℚ)) ≠ 0 := by
    exact_mod_cast a.den_pos.ne'
  have hb : ((b.den : ℚ)) ≠ 0 := by
    exact_mod_cast b.den_pos.ne'
  rw [qAdd, Rat.mkRat_eq_div]
  push_cast
  conv_rhs => rw [← Rat.num_div_den a, ← Rat.num_div_den b]
  field_simp

theorem qDiv_eq (a b : ℚ) : qDiv a b = a / b := by
  have ha : ((a.den : ℚ)) ≠ 0 := by
    exact_mod_cast a.den_pos.ne'
  have hb : ((b.den : ℚ)) ≠ 0 := by
    exact_mod_cast b.den_pos.ne'
  rcases lt_trichotomy b.num 0 with hneg | hzero | hpos
  · rw [qDiv, if_neg (not_le.mpr hneg), Rat.mkRat_eq_div]
    have hc : (((-b.num).toNat : ℚ)) = ((-b.num : ℤ) : ℚ) := by
      exact_mod_cast Int.toNat_of_nonneg (by omega)
    have hbn : ((b.num : ℚ)) ≠ 0 := by
      exact_mod_cast hneg.ne
    push_cast [hc]
    conv_rhs => rw [← Rat.num_div_den a, ← Rat.num_div_den b]
    field_simp
  · have hb0 : b = 0 := by
      rw [← Rat.num_eq_zero]
      exact hzero
    subst hb0
    rw [qDiv]
    norm_num
  · rw [qDiv, if_pos hpos.le, Rat.mkRat_eq_div]
    have hc : ((b.num.toNat : ℚ)) = ((b.num : ℤ) : ℚ) := by
      exact_mod_cast Int.toNat_of_nonneg hpos.le
    have hbn : ((b.num : ℚ)) ≠ 0 := by
      exact_mod_cast hpos.ne'
    push_cast [hc]
    conv_rhs => rw [← Rat.num_div_den a, ← Rat.num_div_den b]
    field_simp

theorem mem_of_mem_eraseOptional {l : List Nat} {o : Option Nat} {y : Nat}
    (hy : y ∈ eraseOptional l o) : y ∈ l := by
  cases o with
  | none => exact hy
  | some i => exact List.mem_of_mem_erase hy

theorem nodup_eraseOptional {l : List Nat} {o : Option Nat}
    (hnd : l.Nodup) : (eraseOptional l o).Nodup := by
  cases o with
  | none => exact hnd
  | some i => exact hnd.erase i

theorem ne_of_mem_eraseOptional {l : List Nat} {i y : Nat}
    (hnd : l.Nodup) (hy : y ∈ eraseOptional l (some i)) : y ≠ i :=
  (hnd.mem_erase_iff.mp hy).1

/-- Clearing the two stored handles empties the live set whenever every
live id is one of the stored handles and ids are not duplicated. -/
theorem clearStored_of_cover (l : List Nat) (a b : Option Nat)
    (hnd : l.Nodup)
    (hsub : ∀ id ∈ l, a = some id ∨ b = some id) :
    eraseOptional (eraseOptional l a) b = [] := by
  rw [List.eq_nil_iff_forall_not_mem]
  intro y hy
  have hy1 : y ∈ eraseOptional l a := mem_of_mem_eraseOptional hy
  have hyl : y ∈ l := mem_of_mem_eraseOptional hy1
  rcases hsub y hyl with h | h
  · subst h
    exact ne_of_mem_eraseOptional hnd hy1 rfl
  · subst h
    exact ne_of_mem_eraseOptional (nodup_eraseOptional hnd) hy rfl

end Rotation

/-- C5: starting twice in succession leaves exactly one live advance
timer and one live progress timer.  For any world in which every live
rotation interval is one of the two stored handles (no duplicate ids),
two consecutive `startModalImageRotationWithIndex` calls leave the live
set exactly `[advId₂, progId₂]` — the pair armed and stored by the second
call (each call first cancels the stored pair, then arms and stores a
fresh pair). -/
theorem c5_double_start_unique_pair (w : Rotation.World)
    (imgs1 imgs2 : List String) (i1 i2 : Int)
    (hsub : ∀ id ∈ w.alive,
      w.storedModal = some id ∨ w.storedProgress = some id)
    (hnd : w.alive.Nodup) :
    ((Rotation.startModalImageRotationWithIndex imgs2 i2
        (Rotation.startModalImageRotationWithIndex imgs1 i1 w).1).1).alive =
      [w.nextId + 2, w.nextId + 3] ∧
    ((Rotation.startModalImageRotationWithIndex imgs2 i2
        (Rotation.startModalImageRotationWithIndex imgs1 i1 w).1).1).storedModal =
      some (w.nextId + 2) ∧
    ((Rotation.startModalImageRotationWithIndex imgs2 i2
        (Rotation.startModalImageRotationWithIndex imgs1 i1 w).1).1).storedProgress =
      some (w.nextId + 3) := by
  have h1 : Rotation.eraseOptional
      (Rotation.eraseOptional w.alive w.storedModal) w.storedProgress = [] :=
    Rotation.clearStored_of_cover _ _ _ hnd hsub
  simp only [Rotation.startModalImageRotationWithIndex,
    Rotation.clearStoredIntervals, Rotation.forceResetProgressBar, h1]
  simp [Rotation.eraseOptional, List.erase_cons]

/-- C5 (witness): two consecutive starts from the freshly loaded module
leave exactly the live pair `[3, 4]`, stored. -/
theorem c5_double_start_unique_pair_witness :
    ((Rotation.startModalImageRotationWithIndex ["b"] 1
        (Rotation.startModalImageRotationWithIndex ["a"] 0
          (Rotation.cleanWorld ⟨true, 3000, true⟩)).1).1).alive = [3, 4] := by
  have h := c5_double_start_unique_pair (Rotation.cleanWorld ⟨true, 3000, true⟩)
    ["a"] ["b"] 0 1 (by intro id hid; cases hid) (by exact List.nodup_nil)
  exact h.1

/-- C6 (counterexample): a product with exactly one image *can* start a
rotation session.  With the modal open on a one-image product (one
thumbnail, shown as the main image), `restartImageRotation()` — reachable
through `forceStartImageRotation`, `setImageRotationInterval` and
`toggleImageRotation(true)` — finds the image among the thumbnails, skips
any length check, and arms the advance/progress pair. -/
theorem c6_one_image_restart_arms_cex :
    Rotation.oneImageWorld.thumbs.length = 1 ∧
    Rotation.rotationArmed
      (Rotation.restartImageRotation Rotation.oneImageWorld) = true ∧
    (Rotation.restartImageRotation Rotation.oneImageWorld).alive = [1, 2] := by
  refine ⟨rfl, by decide, by decide⟩

/-- C6 (amended): `openProductModal` with fewer than two images arms no
timer and schedules no delayed start; `switchMainImage` never schedules
its delayed restart when the product has fewer than two images (or is not
found), and arms nothing itself; and `restartImageRotation` on an empty
thumbnail strip (a zero-image gallery) is a no-op.  Only
`restartImageRotation` with exactly one thumbnail — the counterexample —
starts a session for a < 2-image product. -/
theorem c6_few_images_no_session :
    (∀ (images : List String) (w : Rotation.World), images.length ≤ 1 →
      (Rotation.openProductModal images w).alive = w.alive ∧
      (Rotation.openProductModal images w).timeouts = w.timeouts) ∧
    (∀ (src : String) (idx : Int) (imgs : List String) (w : Rotation.World),
      imgs.length ≤ 1 →
        (Rotation.switchMainImage src idx (some imgs) w).timeouts = w.timeouts ∧
        ∀ id ∈ (Rotation.switchMainImage src idx (some imgs) w).alive,
          id ∈ w.alive) ∧
    (∀ (src : String) (idx : Int) (w : Rotation.World),
      (Rotation.switchMainImage src idx none w).timeouts = w.timeouts ∧
      ∀ id ∈ (Rotation.switchMainImage src idx none w).alive, id ∈ w.alive) ∧
    (∀ w : Rotation.World, w.thumbs = [] →
      Rotation.restartImageRotation w = w) := by
  refine ⟨?_, ?_, ?_, ?_⟩
  · intro images w hlen
    have hnot : ¬(1 < images.length) := by omega
    by_cases h0 : images.length = 0 <;>
      simp [Rotation.openProductModal, h0, hnot]
  · intro src idx imgs w hlen
    have hnot : ¬(1 < imgs.length) := by omega
    by_cases hen : w.cfg.enabled <;>
      simp [Rotation.switchMainImage, hen, hnot,
        Rotation.forceResetProgressBar, Rotation.clearStoredIntervals]
    intro id hid
    exact Rotation.mem_of_mem_eraseOptional
      (Rotation.mem_of_mem_eraseOptional hid)
  · intro src idx w
    by_cases hen : w.cfg.enabled <;>
      simp [Rotation.switchMainImage, hen,
        Rotation.forceResetProgressBar, Rotation.clearStoredIntervals]
    intro id hid
    exact Rotation.mem_of_mem_eraseOptional
      (Rotation.mem_of_mem_eraseOptional hid)
  · intro w hthumbs
    cases hsrc : w.mainSrc <;>
      simp [Rotation.restartImageRotation, hsrc, hthumbs, Rotation.jsIndexOf]

/-- C6 (amended, witness): opening the modal on a one-image product arms
nothing; a thumbnail click on a one-image product schedules nothing; a
restart over an empty gallery is a no-op. -/
theorem c6_few_images_no_session_witness :
    (Rotation.openProductModal ["a.jpg"]
        (Rotation.cleanWorld ⟨true, 3000, true⟩)).alive = [] ∧
    (Rotation.switchMainImage "a.jpg" 0 (some ["a.jpg"])
        (Rotation.cleanWorld ⟨true, 3000, true⟩)).timeouts = [] ∧
    Rotation.restartImageRotation (Rotation.cleanWorld ⟨true, 3000, true⟩) =
      Rotation.cleanWorld ⟨true, 3000, true⟩ := by
  refine ⟨?_, ?_, ?_⟩
  · exact ((c6_few_images_no_session.1 ["a.jpg"]
      (Rotation.cleanWorld ⟨true, 3000, true⟩) (by decide)).1).trans rfl
  · exact ((c6_few_images_no_session.2.1 "a.jpg" 0 ["a.jpg"]
      (Rotation.cleanWorld ⟨true, 3000, true⟩) (by decide)).1).trans rfl
  · exact c6_few_images_no_session.2.2.2 (Rotation.cleanWorld ⟨true, 3000, true⟩) rfl

/-- C1 (counterexample): `resumeOnLeave` does *not* re-arm from the index
displayed at the pause.  In the scenario (interval 100 ms, images
`["a","b","c"]`): after 200 ms the modal displays index 2 (`"c"`); the
pointer enters (pause) and leaves (resume).  The resume calls
`startModalImageRotation(product.images)`, which starts from index 0, so
one interval later the modal displays index 1 (`"b"`), not
`(2+1) mod 3 = 0` (`"a"`) as re-arming from the current index would
give. -/
theorem c1_resume_from_paused_index_cex :
    (Rotation.runTicks 4 Rotation.c1Start.1).mainSrc = some "c" ∧
    Rotation.c1Paused.mainSrc = some "c" ∧
    (Rotation.runTicks 2 Rotation.c1Resumed).mainSrc = some "b" := by
  refine ⟨by decide, by decide, by decide⟩

/-- C1 (amended): when rotation is enabled, leaving the modal's bounding
area after a hover-pause re-arms both timers, but always from index 0 —
not from the index displayed at the pause: the armed session starts with
closure index 0 and the config interval, the progress bar is restarted at
0%, and the displayed image (and so the displayed index) is unchanged at
the instant of the resume; the new handle pair is stored. -/
theorem c1_resume_rearm_from_zero (ids : Nat × Nat) (images : List String)
    (w : Rotation.World) (hEn : w.cfg.enabled = true) :
    (Rotation.resumeOnLeave ids images w).1.sessions.getLast? =
      some { advId := w.nextId, progId := w.nextId + 1, created := w.now, advPeriod := w.cfg.interval, images := images, idx := 0, progress := Rotation.qn 0 } ∧
    (Rotation.resumeOnLeave ids images w).1.progressWidth = Rotation.qn 0 ∧
    (Rotation.resumeOnLeave ids images w).1.mainSrc = w.mainSrc ∧
    (Rotation.resumeOnLeave ids images w).1.storedModal = some w.nextId ∧
    (Rotation.resumeOnLeave ids images w).1.storedProgress =
      some (w.nextId + 1) ∧
    w.nextId ∈ (Rotation.resumeOnLeave ids images w).1.alive ∧
    w.nextId + 1 ∈ (Rotation.resumeOnLeave ids images w).1.alive := by
  simp [Rotation.resumeOnLeave, hEn, Rotation.startModalImageRotation,
    Rotation.startModalImageRotationWithIndex, Rotation.clearStoredIntervals,
    Rotation.forceResetProgressBar]

/-- C1 (amended, witness): resuming over the paused scenario world arms a
fresh session from index 0, resets the progress bar, and leaves the
displayed image `"c"` unchanged at that instant. -/
theorem c1_resume_rearm_from_zero_witness :
    Rotation.c1Resumed.sessions.getLast? =
      some { advId := Rotation.c1Paused.nextId, progId := Rotation.c1Paused.nextId + 1, created := Rotation.c1Paused.now, advPeriod := Rotation.c1Paused.cfg.interval, images := ["a", "b", "c"], idx := 0, progress := Rotation.qn 0 } ∧
    Rotation.c1Resumed.mainSrc = Rotation.c1Paused.mainSrc := by
  have h := c1_resume_rearm_from_zero Rotation.c1Start.2 ["a", "b", "c"]
    Rotation.c1Paused (by decide)
  exact ⟨h.1, h.2.2.1⟩

/-- C8: the claim fails on the code — the delayed restart armed by a
thumbnail click is *not* cancelled by `closeProductModal()` and carries no
visibility re-check.  Scenario (two images, 3000 ms interval): the
session starts at t = 100 ms; at t = 200 ms the user clicks thumbnail
`"b"` (this cancels the timers and schedules the 150 ms restart); at
t = 250 ms the modal is closed — the stored timers are cancelled and the
modal shows `"b"`; at t = 350 ms the pending restart fires and re-arms a
session though the modal is hidden; at t = 3350 ms its advance timer
changes the displayed image to `"a"`.  So advancing time past the
interval after `closeModal()` *does* change the displayed image. -/
theorem c8_thumbnail_close_race_image_changes :
    Rotation.c8Closed.modalOpen = false ∧
    Rotation.c8Closed.mainSrc = some "b" ∧
    Rotation.c8Closed.alive = [] ∧
    Rotation.c8Closed.timeouts =
      [(350, Rotation.TCb.restartAt ["a", "b"] 1)] ∧
    Rotation.rotationArmed Rotation.c8Final = true ∧
    Rotation.c8Final.modalOpen = false ∧
    Rotation.c8Final.mainSrc = some "a" := by
  refine ⟨by decide, by decide, by decide, by decide, ?_, ?_, ?_⟩
  · decide
  · decide
  · decide

namespace Rotation

theorem c7_base (images : List String) (start : Int) (m : Nat) :
    (startModalImageRotationWithIndex images start
      (cleanWorld ⟨true, 50 * m, true⟩)).1 = c7World images start m 0 := by
  simp [startModalImageRotationWithIndex, clearStoredIntervals,
    forceResetProgressBar, cleanWorld, c7World, eraseOptional, qn_eq]

/-- The per-50 ms progress increment `100 / (interval / 50)` equals
`100 / m` for interval `50·m`. -/
theorem c7_inc (m : Nat) (hm : 0 < m) :
    qDiv (qn 100) (qDiv (qn (50 * m)) (qn 50)) = 100 / (m : ℚ) := by
  have hm' : ((m : ℚ)) ≠ 0 := by
    exact_mod_cast hm.ne'
  rw [qDiv_eq, qDiv_eq, qn_eq, qn_eq, qn_eq]
  push_cast
  rw [mul_comm (50 : ℚ) (m : ℚ), mul_div_assoc]
  norm_num

/-- A tick strictly before the interval boundary only runs the progress
timer: the index is untouched and the displayed progress accumulates one
increment. -/
theorem c7_tick_step (images : List String) (start : Int) (m k : Nat)
    (hk : k + 1 < m) :
    tick (c7World images start m k) = c7World images start m (k + 1) := by
  have hm : 0 < m := by omega
  have hp' : qAdd ((k : ℚ) * (100 / (m : ℚ))) (100 / (m : ℚ)) =
      ((k : ℚ) + 1) * (100 / (m : ℚ)) := by
    rw [qAdd_eq]
    ring
  have hle : ((k : ℚ) + 1) * (100 / (m : ℚ)) ≤ qn 100 := by
    rw [qn_eq]
    push_cast
    have hmq : (0 : ℚ) < m := by exact_mod_cast hm
    rw [mul_div_assoc', div_le_iff₀ hmq]
    have hkm : ((k : ℚ)) + 1 ≤ (m : ℚ) := by
      exact_mod_cast (show k + 1 ≤ m by omega)
    nlinarith
  simp only [tick, c7World, fireDueTimeouts, runTimeoutsList, sessionsTick,
    sessionsTickGo, sessionTick]
  split
  · rename_i hadv
    exfalso
    obtain ⟨-, -, h⟩ := hadv
    rw [Nat.sub_zero, show 50 * k + 50 = 50 * (k + 1) by ring,
      Nat.mod_eq_of_lt (by omega : 50 * (k + 1) < 50 * m)] at h
    omega
  · split
    · rename_i hprog
      simp only [fireProgressTick, c7_inc m hm, hp']
      rw [if_pos hle]
      simp only [World.mk.injEq, Session.mk.injEq, List.cons.injEq,
        List.nil_eq, and_true, true_and, List.append_nil, List.nil_append]
      repeat' apply And.intro
      all_goals first
        | rfl
        | omega
        | (push_cast; ring)
    · rename_i hprog
      exfalso
      apply hprog
      refine ⟨?_, ?_, ?_⟩
      · show (2 : Nat) ∈ [1, 2]
        simp
      · show (0 : Nat) < 50 * k + 50
        omega
      · show (50 * k + 50 - 0) % 50 = 0
        omega

theorem runTicks_succ (n : Nat) (w : World) :
    runTicks (n + 1) w = tick (runTicks n w) := by
  induction n generalizing w with
  | zero => rfl
  | succ n ih =>
    calc runTicks (n + 1 + 1) w = runTicks (n + 1) (tick w) := rfl
    _ = tick (runTicks n (tick w)) := ih (tick w)
    _ = tick (runTicks (n + 1) w) := rfl

theorem c7_run (images : List String) (start : Int) (m : Nat) :
    ∀ k, k < m →
      runTicks k ((startModalImageRotationWithIndex images start
        (cleanWorld ⟨true, 50 * m, true⟩)).1) = c7World images start m k := by
  intro k
  induction k with
  | zero =>
    intro _
    exact c7_base images start m
  | succ k ih =>
    intro hk
    rw [runTicks_succ, ih (by omega), c7_tick_step images start m k hk]

/-- The tick at the interval boundary: the advance timer (registered
first) fires — advancing the index, switching the main image and the
active thumbnail, and writing the progress display to 0% — and then the
progress timer, due at the same instant, writes its first post-reset
increment. -/
theorem c7_last_tick (images : List String) (start : Int) (m' : Nat) :
    tick (c7World images start (m' + 1) m') =
      { now := 50 * m' + 50, cfg := ⟨true, 50 * (m' + 1), true⟩, modalOpen := false, mainSrc := jsGet images ((start + 1) % (images.length : Int)), activeThumb := (start + 1) % (images.length : Int), thumbs := [], progressWidth := 100 / (((m' + 1 : Nat)) : ℚ), lastZeroWriteAt := some (50 * m' + 50), storedModal := some 1, storedProgress := some 2, sessions := [{ advId := 1, progId := 2, created := 0, advPeriod := 50 * (m' + 1), images := images, idx := (start + 1) % (images.length : Int), progress := 100 / (((m' + 1 : Nat)) : ℚ) }], alive := [1, 2], timeouts := [], nextId := 3 } := by
  have hm : 0 < m' + 1 := by omega
  have hq0 : qAdd (qn 0) (100 / (((m' + 1 : Nat)) : ℚ)) =
      100 / (((m' + 1 : Nat)) : ℚ) := by
    rw [qAdd_eq, qn_eq]
    push_cast
    ring
  have hle : 100 / (((m' + 1 : Nat)) : ℚ) ≤ qn 100 := by
    rw [qn_eq]
    push_cast
    apply div_le_self (by norm_num)
    exact_mod_cast Nat.one_le_iff_ne_zero.mpr (by omega)
  simp only [tick, c7World, fireDueTimeouts, runTimeoutsList, sessionsTick,
    sessionsTickGo, sessionTick]
  split
  · rename_i hadv
    split
    · rename_i hprog
      simp only [fireAdvance, fireProgressTick, c7_inc (m' + 1) hm, hq0]
      rw [if_pos hle]
      simp only [World.mk.injEq, Session.mk.injEq, List.cons.injEq,
        List.nil_eq, and_true, true_and, List.append_nil, List.nil_append]
    · rename_i hprog
      exfalso
      apply hprog
      refine ⟨?_, ?_, ?_⟩
      · show (2 : Nat) ∈ [1, 2]
        simp
      · show (0 : Nat) < 50 * m' + 50
        omega
      · show (50 * m' + 50 - 0) % 50 = 0
        omega
  · rename_i hadv
    exfalso
    apply hadv
    refine ⟨?_, ?_, ?_⟩
    · show (1 : Nat) ∈ [1, 2]
      simp
    · show (0 : Nat) < 50 * m' + 50
      omega
    · show (50 * m' + 50 - 0) % (50 * (m' + 1)) = 0
      rw [Nat.sub_zero, show 50 * m' + 50 = 50 * (m' + 1) by ring,
        Nat.mod_self]

end Rotation

/-- C7: a rotation session started over `n > 1` images with interval
`I = 50·m` ms from a valid index `start`: after exactly `I` ms (that is,
`m` 50 ms ticks) the displayed main image is `images[(start+1) mod n]`,
the active thumbnail marks that index, and the displayed progress was
reset to 0% at that instant (`lastZeroWriteAt = I`, written by the
advance callback).  The progress timer, due at the same instant but
registered after the advance timer, then writes its first post-reset
increment, so the bar ends the instant at `100/(I/50) = 100/m` percent. -/
theorem c7_first_interval_advance (images : List String) (start : Int)
    (m : Nat) (_hn : 2 ≤ images.length) (_hs0 : 0 ≤ start)
    (_hsn : start < (images.length : Int)) (hm : 0 < m) :
    (Rotation.runTicks m ((Rotation.startModalImageRotationWithIndex images
        start (Rotation.cleanWorld ⟨true, 50 * m, true⟩)).1)).mainSrc =
      Rotation.jsGet images ((start + 1) % (images.length : Int)) ∧
    (Rotation.runTicks m ((Rotation.startModalImageRotationWithIndex images
        start (Rotation.cleanWorld ⟨true, 50 * m, true⟩)).1)).activeThumb =
      (start + 1) % (images.length : Int) ∧
    (Rotation.runTicks m ((Rotation.startModalImageRotationWithIndex images
        start (Rotation.cleanWorld ⟨true, 50 * m, true⟩)).1)).lastZeroWriteAt =
      some (50 * m) ∧
    (Rotation.runTicks m ((Rotation.startModalImageRotationWithIndex images
        start (Rotation.cleanWorld ⟨true, 50 * m, true⟩)).1)).progressWidth =
      100 / ((m : Nat) : ℚ) := by
  obtain ⟨m', rfl⟩ : ∃ m', m = m' + 1 := ⟨m - 1, by omega⟩
  rw [Rotation.runTicks_succ,
    Rotation.c7_run images start (m' + 1) m' (by omega),
    Rotation.c7_last_tick images start m']
  refine ⟨rfl, rfl, by simp [Nat.mul_add], rfl⟩

/-- C7 (witness): three images, interval 100 ms, start index 1 — after
100 ms the modal shows image 2 (`"c"`), the active thumbnail is 2, the
progress was reset at t = 100 ms, and the bar ends the instant at 50%. -/
theorem c7_first_interval_advance_witness :
    (2 : Nat) ≤ (["a", "b", "c"] : List String).length ∧
    (Rotation.runTicks 2 ((Rotation.startModalImageRotationWithIndex
        ["a", "b", "c"] 1 (Rotation.cleanWorld ⟨true, 100, true⟩)).1)).mainSrc =
      some "c" ∧
    (Rotation.runTicks 2 ((Rotation.startModalImageRotationWithIndex
        ["a", "b", "c"] 1
        (Rotation.cleanWorld ⟨true, 100, true⟩)).1)).activeThumb = 2 ∧
    (Rotation.runTicks 2 ((Rotation.startModalImageRotationWithIndex
        ["a", "b", "c"] 1
        (Rotation.cleanWorld ⟨true, 100, true⟩)).1)).lastZeroWriteAt =
      some 100 := by
  have h := c7_first_interval_advance ["a", "b", "c"] 1 2 (by norm_num)
    (by norm_num) (by norm_num) (by norm_num)
  refine ⟨by norm_num, ?_, ?_, ?_⟩
  · exact h.1.trans (by decide)
  · exact h.2.1.trans (by decide)
  · exact h.2.2.1.trans (by decide)
